import Mathlib

/-!
Shallow embedding of the `mini-me-assistant` routing core
(`src/core/assistant.py`, `src/core/memory.py`, `src/core/email_agent.py`).

External collaborators (the OpenAI completion endpoint, the Gmail provider,
the Memori fact store) are modelled as environment records: one field per
call site, holding either the text/data the service returned or the
exception it raised.  Whether a completion goes through the Memori-wrapped
client or the default client does not change its observable contract, so a
single environment field per call site covers both branches of the
`hasattr(memory_manager, 'chat_completion')` dispatch in the source.

Python values flowing out of `json.loads` are modelled by the `Json`
inductive; Python `None` and JSON `null` are both `Json.null`, matching the
fact that `json.loads` maps `null` to `None`.  Exceptions are modelled by
the `Exc` type and `Except`.  All strings are treated at the level of
Unicode characters; case mapping and whitespace predicates are the ASCII
ones (the keyword sets and protocol strings in the source are ASCII).
-/

set_option autoImplicit false

namespace MiniMe

/-! ### String helpers shared by the embedding

Python's string methods are re-implemented here on the character list
(the core `String` library routines are byte-position based and do not
reduce inside the kernel).  Whitespace and case mapping are the ASCII
ones; every keyword set and protocol string in the source is ASCII. -/

/-- Python `str.strip()`: drop leading and trailing whitespace. -/
def pyStrip (s : String) : String :=
  String.mk (((s.data.dropWhile Char.isWhitespace).reverse.dropWhile
    Char.isWhitespace).reverse)

/-- Python `str.lower()`. -/
def pyLower (s : String) : String :=
  String.mk (s.data.map Char.toLower)

/-- Helper for prefix tests and literal matching: when `pre` is a prefix
of `cs`, the input after the match, else `none`. -/
def startsWithChars (pre cs : List Char) : Option (List Char) :=
  match pre, cs with
  | [], rest => some rest
  | p :: ps, c :: rest => if p = c then startsWithChars ps rest else none
  | _ :: _, [] => none

/-- Python `s.startswith(pre)`. -/
def pyStartsWith (s pre : String) : Bool :=
  (startsWithChars pre.data s.data).isSome

/-- Substring occurrence of a nonempty needle. -/
def containsSub : List Char → List Char → Bool
  | _, [] => true
  | [], _ :: _ => false
  | c :: rest, p :: ps =>
    (startsWithChars (p :: ps) (c :: rest)).isSome || containsSub rest (p :: ps)

/-- Python `pat in s` substring test (the empty pattern is contained in
every string, as in Python). -/
def strContains (s pat : String) : Bool :=
  pat = "" || containsSub s.data pat.data

/-- Python slicing `s[:n]` (by characters). -/
def pySlice (s : String) (n : Nat) : String :=
  String.mk (s.data.take n)

/-- Python `s.split()` — split on whitespace runs, no empty pieces. -/
def pySplitAux : List Char → List Char → List String
  | [], acc => if acc.isEmpty then [] else [String.mk acc.reverse]
  | c :: rest, acc =>
    if c.isWhitespace then
      if acc.isEmpty then pySplitAux rest []
      else String.mk acc.reverse :: pySplitAux rest []
    else pySplitAux rest (c :: acc)

def pySplit (s : String) : List String :=
  pySplitAux s.data []

/-- Python `str.splitlines()` restricted to the `\n`, `\r\n`, `\r`
terminators (the ones that occur in LLM output): splits at each
terminator and drops a trailing empty line produced by a final
terminator, exactly as `splitlines` does. -/
def splitLinesAux : Nat → List Char → List Char → List String
  | 0, _, _ => []
  | _ + 1, [], acc => if acc.isEmpty then [] else [String.mk acc.reverse]
  | fuel + 1, c :: rest, acc =>
    if c = '\n' then String.mk acc.reverse :: splitLinesAux fuel rest []
    else if c = '\r' then
      match rest with
      | '\n' :: rest2 => String.mk acc.reverse :: splitLinesAux fuel rest2 []
      | _ => String.mk acc.reverse :: splitLinesAux fuel rest []
    else splitLinesAux fuel rest (c :: acc)

/-- Each step consumes at least one character and one unit of fuel, so
fuel equal to the length never runs out. -/
def splitLines (s : String) : List String :=
  splitLinesAux (s.length + 1) s.data []

/-- The code-fence stripper `_strip_code_fences` of `src/core/assistant.py`:
strip the text; if it starts with three backticks drop the first line and
a final fence line, rejoin and strip again. -/
def stripCodeFences (text : String) : String :=
  let t := pyStrip text
  if pyStartsWith t "```" then
    let lines := splitLines t
    let lines := lines.drop 1
    let lines :=
      match lines.getLast? with
      | some last => if pyStartsWith (pyStrip last) "```" then lines.dropLast else lines
      | none => lines
    pyStrip (String.intercalate "\n" lines)
  else t

/-! ### Python/JSON values

`Json` models the values `json.loads` can produce.  Numbers keep their
source lexeme: the code under study never computes with a JSON number, it
only tests identity against strings (always false for numbers) and Python
truthiness (zero lexeme ↔ falsy). -/

inductive Json where
  | null
  | bool (b : Bool)
  | num (lexeme : String)
  | str (s : String)
  | arr (elems : List Json)
  | obj (fields : List (String × Json))

/-- Python `x == "lit"` for a JSON-decoded value `x` and a string literal:
true exactly when `x` is that string. -/
def Json.eqStr : Json → String → Bool
  | .str s, t => s = t
  | _, _ => false

/-- Python `dict.get(key)` on a JSON object: `none` when the key is
absent.  JSON decoding keeps the last value for a duplicated key, hence
the reverse lookup. -/
def Json.get : Json → String → Option Json
  | .obj fields, key => (fields.reverse.find? (fun p => p.1 = key)).map (·.2)
  | _, _ => none

/-- Python `dict.get(key, default)` on a JSON object. -/
def pyGet (j : Json) (key : String) (default : Json) : Json :=
  (j.get key).getD default

/-! ### A model of `json.loads`

Recursive-descent parser over the character list with explicit fuel
(nesting depth and member count are both bounded by the input length, so
`length + 2` fuel never runs out on accepted inputs).  It follows the
strict-mode Python decoder: JSON whitespace, the `true/false/null`
literals plus `NaN`, `Infinity` and negative `Infinity`, strings with the standard escape
set and no raw control characters, and the standard number grammar.  The
whole input must be consumed. -/

def jsonWsChar (c : Char) : Bool :=
  c = ' ' || c = '\t' || c = '\n' || c = '\r'

def skipWs : List Char → List Char
  | [] => []
  | c :: rest => if jsonWsChar c then skipWs rest else c :: rest

def hexVal (c : Char) : Option Nat :=
  if '0' ≤ c ∧ c ≤ '9' then some (c.toNat - '0'.toNat)
  else if 'a' ≤ c ∧ c ≤ 'f' then some (c.toNat - 'a'.toNat + 10)
  else if 'A' ≤ c ∧ c ≤ 'F' then some (c.toNat - 'A'.toNat + 10)
  else none

def parseStringBody : Nat → List Char → List Char → Option (String × List Char)
  | 0, _, _ => none
  | _ + 1, _, [] => none
  | fuel + 1, acc, c :: rest =>
    if c = '"' then some (String.mk acc.reverse, rest)
    else if c = '\\' then
      match rest with
      | [] => none
      | e :: rest2 =>
        if e = '"' then parseStringBody fuel ('"' :: acc) rest2
        else if e = '\\' then parseStringBody fuel ('\\' :: acc) rest2
        else if e = '/' then parseStringBody fuel ('/' :: acc) rest2
        else if e = 'b' then parseStringBody fuel ('\x08' :: acc) rest2
        else if e = 'f' then parseStringBody fuel ('\x0c' :: acc) rest2
        else if e = 'n' then parseStringBody fuel ('\n' :: acc) rest2
        else if e = 'r' then parseStringBody fuel ('\r' :: acc) rest2
        else if e = 't' then parseStringBody fuel ('\t' :: acc) rest2
        else if e = 'u' then
          match rest2 with
          | h1 :: h2 :: h3 :: h4 :: rest3 =>
            match hexVal h1, hexVal h2, hexVal h3, hexVal h4 with
            | some a, some b, some cc, some d =>
              parseStringBody fuel (Char.ofNat (((a * 16 + b) * 16 + cc) * 16 + d) :: acc) rest3
            | _, _, _, _ => none
          | _ => none
        else none
    else if c.toNat < 32 then none
    else parseStringBody fuel (c :: acc) rest

def takeDigits : List Char → List Char × List Char
  | [] => ([], [])
  | c :: rest =>
    if c.isDigit then
      let (ds, r) := takeDigits rest
      (c :: ds, r)
    else ([], c :: rest)

/-- Parse a JSON number lexeme `-?(0|[1-9][0-9]*)(\.[0-9]+)?([eE][+-]?[0-9]+)?`,
returning the lexeme and the remaining input. -/
def parseNumber (cs : List Char) : Option (List Char × List Char) := do
  let (sign, cs1) :=
    match cs with
    | '-' :: rest => (['-'], rest)
    | _ => ([], cs)
  let (ipart, cs2) ←
    match cs1 with
    | '0' :: rest => some (['0'], rest)
    | c :: rest =>
      if c.isDigit ∧ c ≠ '0' then
        let (ds, r) := takeDigits rest
        some (c :: ds, r)
      else none
    | [] => none
  let (fpart, cs3) ←
    match cs2 with
    | '.' :: rest =>
      let (ds, r) := takeDigits rest
      if ds.isEmpty then none else some ('.' :: ds, r)
    | _ => some ([], cs2)
  let (epart, cs4) ←
    match cs3 with
    | e :: rest =>
      if e = 'e' ∨ e = 'E' then
        let (es, rest2) :=
          match rest with
          | s :: r2 => if s = '+' ∨ s = '-' then ([e, s], r2) else ([e], rest)
          | [] => ([e], rest)
        let (ds, r) := takeDigits rest2
        if ds.isEmpty then none else some (es ++ ds, r)
      else some ([], cs3)
    | [] => some ([], cs3)
  some (sign ++ ipart ++ fpart ++ epart, cs4)

mutual

def parseValue : Nat → List Char → Option (Json × List Char)
  | 0, _ => none
  | fuel + 1, cs =>
    let cs := skipWs cs
    match cs with
    | [] => none
    | c :: rest =>
      if c = '"' then
        (parseStringBody (rest.length + 1) [] rest).map (fun p => (Json.str p.1, p.2))
      else if c = '{' then
        let rest1 := skipWs rest
        match rest1 with
        | '}' :: rest2 => some (Json.obj [], rest2)
        | _ => parseMembers fuel rest1 []
      else if c = '[' then
        let rest1 := skipWs rest
        match rest1 with
        | ']' :: rest2 => some (Json.arr [], rest2)
        | _ => parseElements fuel rest1 []
      else if c = 't' then
        (startsWithChars ['r', 'u', 'e'] rest).map (fun r => (Json.bool true, r))
      else if c = 'f' then
        (startsWithChars ['a', 'l', 's', 'e'] rest).map (fun r => (Json.bool false, r))
      else if c = 'n' then
        (startsWithChars ['u', 'l', 'l'] rest).map (fun r => (Json.null, r))
      else if c = 'N' then
        (startsWithChars ['a', 'N'] rest).map (fun r => (Json.num "NaN", r))
      else if c = 'I' then
        (startsWithChars ['n', 'f', 'i', 'n', 'i', 't', 'y'] rest).map
          (fun r => (Json.num "Infinity", r))
      else if c = '-' ∧ (startsWithChars ['I'] rest).isSome then
        (startsWithChars ['I', 'n', 'f', 'i', 'n', 'i', 't', 'y'] rest).map
          (fun r => (Json.num "-Infinity", r))
      else
        (parseNumber cs).map (fun p => (Json.num (String.mk p.1), p.2))

/-- Members of an object, positioned at the start of a key string. -/
def parseMembers : Nat → List Char → List (String × Json) →
    Option (Json × List Char)
  | 0, _, _ => none
  | fuel + 1, cs, acc =>
    match cs with
    | '"' :: rest => do
      let (key, rest1) ← parseStringBody (rest.length + 1) [] rest
      let rest2 := skipWs rest1
      match rest2 with
      | ':' :: rest3 => do
        let (v, rest4) ← parseValue fuel rest3
        let rest5 := skipWs rest4
        match rest5 with
        | ',' :: rest6 => parseMembers fuel (skipWs rest6) (acc ++ [(key, v)])
        | '}' :: rest6 => some (Json.obj (acc ++ [(key, v)]), rest6)
        | _ => none
      | _ => none
    | _ => none

/-- Elements of an array, positioned at the start of a value. -/
def parseElements : Nat → List Char → List Json → Option (Json × List Char)
  | 0, _, _ => none
  | fuel + 1, cs, acc => do
    let (v, rest) ← parseValue fuel cs
    let rest1 := skipWs rest
    match rest1 with
    | ',' :: rest2 => parseElements fuel rest2 (acc ++ [v])
    | ']' :: rest2 => some (Json.arr (acc ++ [v]), rest2)
    | _ => none

end

/-- Model of `json.loads` on a string: parse one value surrounded by
optional whitespace and demand the whole input be consumed; `none` models
`JSONDecodeError`. -/
def jsonLoads (s : String) : Option Json :=
  match parseValue (s.length + 2) s.data with
  | some (j, rest) => if (skipWs rest).isEmpty then some j else none
  | none => none

/-! ### Memory context builder (`src/core/memory.py`)

`MemoryManagerState` carries the two pieces of a constructed
`MemoryManager` that `build_memory_context` reads: the resolved numeric
entity id (`None` when resolution failed) and the behaviour of the fact
store on this turn.  `fetchOutcome = .ok rows` is the recency-ordered
answer of the `SELECT ... ORDER BY date_last_time DESC LIMIT 25` query
(`_fetch_recent_facts` converts its own query errors into `[]`, so an
`.ok []` also covers those); `.error` models an exception escaping
`_fetch_recent_facts`, which the `try` in `build_memory_context`
converts into an empty context. -/

def STOPWORDS : List String :=
  ["i", "me", "my", "you", "your", "the", "and", "but", "for",
   "are", "about", "that", "this", "with", "have", "what", "when",
   "who", "how", "why", "which", "favorite", "favourite"]

def isWordChar (c : Char) : Bool := c.isAlphanum || c = '_'

/-- Python `re.findall(r"\w+", s)`: maximal runs of word characters. -/
def wordsOfAux : List Char → List Char → List String
  | [], acc => if acc.isEmpty then [] else [String.mk acc.reverse]
  | c :: rest, acc =>
    if isWordChar c then wordsOfAux rest (c :: acc)
    else if acc.isEmpty then wordsOfAux rest []
    else String.mk acc.reverse :: wordsOfAux rest []

def wordsOf (s : String) : List String := wordsOfAux s.data []

/-- The keyword set `build_memory_context` scores against: lowercase word
tokens of the message, minus stop words and tokens of length ≤ 2, falling
back to the unfiltered token set when the filter removes everything.
Python keeps these in a `set`; only membership, emptiness and iteration
for a sum are used, so a deduplicated list is a faithful model. -/
def queryKeywords (userMessage : String) : List String :=
  let allToks := (wordsOf (pyLower userMessage)).dedup
  let filtered := allToks.filter (fun t => t.length > 2 && !STOPWORDS.contains t)
  if filtered.isEmpty then allToks else filtered

/-- Count of query keywords textually contained in the lowercased fact:
`sum(1 for kw in keywords if kw in lowered)`. -/
def countKeywordHits (keywords : List String) (fact : String) : Nat :=
  (keywords.filter (fun kw => strContains (pyLower fact) kw)).length

/-- Score of the fact at position `idx` among `nFacts` facts, scaled by
100: keyword hit count plus the recency bonus
`max(0.0, (len(facts) - idx) * 0.01)`.  Python computes the score
`c + k * 0.01` in floating point with `c : ℕ` and, because the fetch is
capped at 25 facts, `k = len - idx ∈ [1, 25]`.  Distinct exact scores
differ by at least `1/100`, far above the float rounding error, and equal
exact scores arise from identical float expressions, so comparing the
integers `100 * c + k` is exactly the float order used by the code, and
positivity of the scaled score is positivity of the float score. -/
def factScore (keywords : List String) (nFacts idx : Nat) (fact : String) : Int :=
  100 * (countKeywordHits keywords fact : Int) +
    max 0 ((nFacts : Int) - (idx : Int))

def scoreFacts (keywords : List String) (facts : List String) : List (Int × String) :=
  facts.enum.map (fun p => (factScore keywords facts.length p.1 p.2, p.2))

/-- Stable descending insertion: an element goes in front of the first
strictly smaller score, hence after earlier equal scores. -/
def insertDesc (x : Int × String) : List (Int × String) → List (Int × String)
  | [] => [x]
  | y :: ys => if x.1 < y.1 then y :: insertDesc x ys else x :: y :: ys

/-- Stable sort by descending score.  Python's `list.sort(key=...,
reverse=True)` is stable and a stable sort by a key is uniquely
determined, so this insertion sort computes the same list. -/
def sortDesc : List (Int × String) → List (Int × String)
  | [] => []
  | x :: xs => insertDesc x (sortDesc xs)

structure MemoryManagerState where
  entityId : Option Int
  fetchOutcome : Except String (List String)

/-- Python truthiness of the `Optional[int]` entity id: `None` and `0`
are falsy (`if not self.entity_id`). -/
def entityFalsy : Option Int → Bool
  | none => true
  | some n => n = 0

structure MemoryContextResult where
  context : String
  queriedStore : Bool

/-- The fact list `_fetch_recent_facts(limit=25)` hands back on a
successful query: at most 25 recency-ordered rows with falsy (empty)
contents dropped (`[row[0] for row in rows if row and row[0]]`). -/
def fetchedFacts (rows : List String) : List String :=
  (rows.take 25).filter (fun r => r ≠ "")

/-- Model of `MemoryManager.build_memory_context`.  `queriedStore`
records whether the fact store was consulted. -/
def buildMemoryContext (mgr : MemoryManagerState) (userMessage : String) :
    MemoryContextResult :=
  if userMessage = "" || entityFalsy mgr.entityId then
    { context := "", queriedStore := false }
  else
    match mgr.fetchOutcome with
    | .error _ => { context := "", queriedStore := true }
    | .ok rows =>
      let facts := fetchedFacts rows
      if facts.isEmpty then { context := "", queriedStore := true }
      else
        let keywords := queryKeywords userMessage
        let scored := sortDesc (scoreFacts keywords facts)
        let relevant := ((scored.filter (fun p => 0 < p.1)).map Prod.snd).take 5
        let relevant := if relevant.isEmpty then facts.take 3 else relevant
        if relevant.isEmpty then { context := "", queriedStore := true }
        else
          let lines := "Relevant memories:" :: relevant.map (fun f => "- " ++ f)
          { context := pySlice (String.intercalate "\n" lines) 1500,
            queriedStore := true }

/-! ### Email agent (`src/core/email_agent.py`)

The pending draft is the single-slot instance state of `EmailAgent`.
`draft_reply` always stores `id/raw/preview/subject` together, so the
draft is a record; the `.get("subject", "email")` default in
`send_pending_draft` can therefore never fire and the subject is read
directly.  Provider (`HttpError`) and generation outcomes are environment
data. -/

structure EmailDraft where
  id : String
  raw : String
  preview : String
  subject : String

structure EmailAgentState where
  pendingDraft : Option EmailDraft

def hasPendingDraft (st : EmailAgentState) : Bool :=
  st.pendingDraft.isSome

/-- Exceptions that can escape an `EmailAgent` operation into the
dispatch `try` of `_handle_email`: `EmailAgentError` (wrapping provider
errors, not-found conditions and missing sender configuration) or any
other exception (for instance a completion-call failure inside
`_run_prompt`). -/
inductive EmailExc where
  | agentError (msg : String)
  | otherExc (msg : String)

/-- Result of `EmailAgent.send_pending_draft`: the value returned or the
exception raised, the instance state afterwards, and the raw payload
transmitted to the provider (if the send call was reached). -/
structure SendOutcome where
  result : Except EmailExc String
  state : EmailAgentState
  sent : Option String

/-- Model of `EmailAgent.send_pending_draft`.  `providerSend` is the
outcome of `service.users().messages().send(...)`: `.error msg` is an
`HttpError` rendered as `msg`. -/
def sendPendingDraft (st : EmailAgentState) (providerSend : Except String Unit) :
    SendOutcome :=
  match st.pendingDraft with
  | none =>
    { result := .error (.agentError "There's no draft waiting for approval.")
      state := st
      sent := none }
  | some d =>
    match providerSend with
    | .error e =>
      { result := .error (.agentError ("Failed to send the email: " ++ e))
        state := st
        sent := some d.raw }
    | .ok _ =>
      { result := .ok ("Done — I sent your reply about '" ++ d.subject ++ "'.")
        state := { pendingDraft := none }
        sent := some d.raw }

/-! ### Assistant router (`src/core/assistant.py`) -/

/-- Exceptions observable at the `handle_message` boundary. -/
inductive Exc where
  /-- `AttributeError` from calling `.get`/`.strip` on a JSON-decoded
  value of the wrong shape (non-object command, non-string field). -/
  | jsonAttr
  /-- An exception raised by a `chat_completion` call (configuration
  error such as a missing API key, or a network/provider failure). -/
  | completionError (msg : String)

/-- Behaviour of the external world during one `_handle_email` turn:
availability of the (lazily constructed, module-global) `EmailAgent`,
the routing model's answer, and the outcome of each agent operation the
dispatch can invoke.  `draftReplyOutcome`'s payload is the new pending
draft built from the located thread and the generated reply text. -/
structure EmailEnv where
  agentInit : Except String Unit
  routeCompletion : Except Exc String
  inboxSummary : Except EmailExc String
  threadSummary : Except EmailExc String
  draftReplyOutcome : Except EmailExc EmailDraft
  providerSend : Except String Unit

/-- Behaviour of the external world during one `handle_message` turn. -/
structure Env where
  memoryManager : Except String MemoryManagerState
  classifyCompletion : Except Exc String
  actionCompletion : Except Exc String
  convCompletion : Except Exc String
  email : EmailEnv

/-- The result dictionary: every return site of the handlers builds a
dict with exactly the keys `reply`, `intent`, `task`, `note`, so the
envelope is a four-field record of Python values. -/
structure PyResult where
  reply : Json
  intent : Json
  task : Json
  note : Json

def allowedIntents : List String :=
  ["task", "note", "draft_reply", "question", "other", "email"]

def emailKeywords : List String :=
  ["email", "emails", "inbox", "mailbox", "gmail",
   "draft", "drafts", "reply", "replies", "unread"]

/-- Post-processing of the classifier model's output in
`_classify_intent`: strip and lowercase, take the first
whitespace-delimited token (or `other` when empty), accept it only if it
is a known label. -/
def classifyIntent (modelOutput : String) : String :=
  let raw := pyLower (pyStrip modelOutput)
  let tok := if raw = "" then "other" else (pySplit raw).headD "other"
  if allowedIntents.contains tok then tok else "other"

/-- The keyword override in `handle_message`: `any(keyword in normalized
for keyword in _EMAIL_KEYWORDS)` on the lowercased text. -/
def containsEmailKeyword (userText : String) : Bool :=
  emailKeywords.any (fun kw => strContains (pyLower userText) kw)

/-- The intent actually routed: the classified intent, force-overridden
to `email` when the raw text contains a mail keyword. -/
def routeIntent (classified : String) (userText : String) : String :=
  if classified ≠ "email" && containsEmailKeyword userText then "email"
  else classified

/-- Python truthiness of a JSON number given its lexeme: falsy exactly
when the value is zero, i.e. the mantissa holds no nonzero digit. -/
def numLexIsZero (l : String) : Bool :=
  (l.data.takeWhile (fun c => c ≠ 'e' && c ≠ 'E')).all
    (fun c => c = '0' || c = '.' || c = '-' || c = '+')

/-- Python `(command.get(key) or "").strip()` on a JSON-decoded command:
falsy field values give `""`, string values are stripped, truthy
non-string values raise `AttributeError`. -/
def getStrField (cmd : Json) (key : String) : Except Exc String :=
  match pyGet cmd key Json.null with
  | .null => .ok ""
  | .str s => .ok (pyStrip s)
  | .bool b => if b then .error .jsonAttr else .ok ""
  | .num l => if numLexIsZero l then .ok "" else .error .jsonAttr
  | .arr es => if es.isEmpty then .ok "" else .error .jsonAttr
  | .obj fs => if fs.isEmpty then .ok "" else .error .jsonAttr

/-- Conversion of an exception caught by the dispatch `try` in
`_handle_email` into the user-facing reply string. -/
def emailExcReply : EmailExc → String
  | .agentError msg => msg
  | .otherExc msg => "Sorry, the email agent ran into an issue: " ++ msg

/-- The default command `_parse_email_command` substitutes on a
`JSONDecodeError`. -/
def defaultEmailCommand : Json :=
  Json.obj [("action", .str "summarize_inbox"), ("query", .null),
            ("instructions", .null), ("confirmation", .null)]

/-- The dispatch `try` block of `_handle_email`: run the selected agent
operation, converting `EmailAgentError` and any other exception into
reply text.  Returns the reply and the agent state afterwards. -/
def dispatchEmailAction (env : EmailEnv) (st : EmailAgentState)
    (action : Json) (query : String) (confirmation : Json) :
    String × EmailAgentState :=
  if action.eqStr "summarize_thread" then
    if query = "" then ("Please specify which conversation to summarize.", st)
    else
      match env.threadSummary with
      | .ok r => (r, st)
      | .error e => (emailExcReply e, st)
  else if action.eqStr "draft_reply" then
    if query = "" then ("I need a keyword or sender to find that conversation.", st)
    else
      match env.draftReplyOutcome with
      | .ok d =>
        ("Here's a draft. Let me know if you'd like me to send it." ++
           "\n\nPreview:\n" ++ d.preview,
         { pendingDraft := some d })
      | .error e => (emailExcReply e, st)
  else if action.eqStr "send_draft" then
    if !hasPendingDraft st then ("There's no draft waiting to send.", st)
    else if !confirmation.eqStr "send_now" then
      ("I have the draft ready. Say 'yes, send it' when you're sure.", st)
    else
      let out := sendPendingDraft st env.providerSend
      match out.result with
      | .ok msg => (msg, out.state)
      | .error e => (emailExcReply e, out.state)
  else if action.eqStr "status" then
    (if hasPendingDraft st then
       "There's a draft waiting for approval. Tell me when to send it."
     else "No drafts are pending approval right now.", st)
  else
    match env.inboxSummary with
    | .ok r => (r, st)
    | .error e => (emailExcReply e, st)

/-- Reply text and resulting agent state of `_handle_email` (including
`_parse_email_command` and the `_get_email_agent` guard).  Field
extraction from the parsed command happens before the dispatch `try`, so
an `AttributeError` there propagates. -/
def handleEmailCore (env : EmailEnv) (st : EmailAgentState) :
    Except Exc (String × EmailAgentState) :=
  match env.agentInit with
  | .error e => .ok ("Email agent unavailable: " ++ e, st)
  | .ok _ => do
    let raw ← env.routeCompletion
    let command :=
      match jsonLoads (stripCodeFences raw) with
      | some j => j
      | none => defaultEmailCommand
    match command with
    | .obj fields =>
      let cmd := Json.obj fields
      let action := pyGet cmd "action" (.str "summarize_inbox")
      let query ← getStrField cmd "query"
      let _instructions ← getStrField cmd "instructions"
      let confirmation := pyGet cmd "confirmation" .null
      .ok (dispatchEmailAction env st action query confirmation)
    | _ => .error .jsonAttr

/-- Both return sites of `_handle_email` wrap the reply in the same
`{"reply": ..., "intent": "email", "task": None, "note": None}`
envelope. -/
def emailEnvelope (p : String × EmailAgentState) : PyResult × EmailAgentState :=
  ({ reply := .str p.1, intent := .str "email", task := .null, note := .null }, p.2)

/-- Model of `_handle_email`. -/
def handleEmail (env : EmailEnv) (st : EmailAgentState) :
    Except Exc (PyResult × EmailAgentState) :=
  (handleEmailCore env st).map emailEnvelope

/-- Model of `_handle_action`: strip fences, parse JSON; on decode
failure degrade to the raw text with intent `other`; on success read the
four fields permissively with `dict.get`; a non-object decode raises
`AttributeError`. -/
def handleAction (env : Env) (intent : String) : Except Exc PyResult := do
  let raw0 ← env.actionCompletion
  let raw := stripCodeFences raw0
  match jsonLoads raw with
  | none =>
    .ok { reply := .str raw, intent := .str "other", task := .null, note := .null }
  | some data =>
    match data with
    | .obj fields =>
      let d := Json.obj fields
      .ok { reply := pyGet d "reply" (.str "")
            intent := pyGet d "intent" (.str intent)
            task := pyGet d "task" .null
            note := pyGet d "note" .null }
    | _ => .error .jsonAttr

/-- Model of `_handle_conversation`: the trimmed completion text is the
reply; task and note stay null. -/
def handleConversation (env : Env) (intent : String) : Except Exc PyResult := do
  let raw ← env.convCompletion
  .ok { reply := .str (pyStrip raw), intent := .str intent,
        task := .null, note := .null }

/-- Model of `handle_message`.  The memory-manager block is wrapped in a
`try` that falls back to no context; the classifier and handlers run
unguarded, so their exceptions propagate.  The trailing persistence block
(`add_conversation` / `store_memory`) only calls no-op compatibility
methods and is itself wrapped in an error-swallowing `try`, so it affects
neither the result nor the agent state. -/
def handleMessage (env : Env) (st : EmailAgentState) (userText : String) :
    Except Exc (PyResult × EmailAgentState) := do
  let _memoryContext : Option String :=
    match env.memoryManager with
    | .ok mgr => some (buildMemoryContext mgr userText).context
    | .error _ => none
  let rawClassify ← env.classifyCompletion
  let intent := routeIntent (classifyIntent rawClassify) userText
  if intent = "email" then
    handleEmail env.email st
  else if intent = "task" ∨ intent = "note" ∨ intent = "draft_reply" then do
    let r ← handleAction env intent
    .ok (r, st)
  else do
    let r ← handleConversation env intent
    .ok (r, st)

/-! ### Concrete scenario data for witnesses and counterexamples -/

def exDraft : EmailDraft where
  id := "d1"
  raw := "RAW-PAYLOAD"
  preview := "Thanks, see you Friday."
  subject := "Budget"

def idleAgent : EmailAgentState where
  pendingDraft := none

def pendingAgent : EmailAgentState where
  pendingDraft := some exDraft

def exMgr : MemoryManagerState where
  entityId := some 1
  fetchOutcome := .ok []

def exEmailEnv : EmailEnv where
  agentInit := .ok ()
  routeCompletion := .ok "\x7b\x7d"
  inboxSummary := .ok "Inbox summary."
  threadSummary := .ok "Thread summary."
  draftReplyOutcome := .ok exDraft
  providerSend := .ok ()

def exEnv : Env where
  memoryManager := .ok exMgr
  classifyCompletion := .ok "question"
  actionCompletion := .ok "\x7b\x7d"
  convCompletion := .ok "hello"
  email := exEmailEnv

/-! ### Helper lemmas -/

theorem contains_iff_mem_str {l : List String} {s : String} :
    l.contains s = true ↔ s ∈ l :=
  ⟨fun h => List.mem_of_elem_eq_true h, fun h => List.elem_eq_true_of_mem h⟩

/-- Unfolding step for the `Except` do-notation. -/
theorem bind_ok_eq {ε α β : Type} (a : α) (f : α → Except ε β) :
    (Except.ok a : Except ε α) >>= f = f a := rfl

/-! ### Claims about the classifier and the action handler -/

/-- Claim C7: `_classify_intent` takes the first whitespace-delimited token
of the model output case-insensitively and returns it only when it is one of
the six known intent labels; any other output — the empty string included —
yields `other`. -/
theorem C7_classifier_normalizes (modelOutput : String) :
    classifyIntent modelOutput ∈ allowedIntents ∧
    ((pySplit (pyLower (pyStrip modelOutput))).headD "other" ∈ allowedIntents →
      classifyIntent modelOutput =
        (pySplit (pyLower (pyStrip modelOutput))).headD "other") ∧
    ((pySplit (pyLower (pyStrip modelOutput))).headD "other" ∉ allowedIntents →
      classifyIntent modelOutput = "other") := by
  have hchar : classifyIntent modelOutput =
      if allowedIntents.contains
          ((pySplit (pyLower (pyStrip modelOutput))).headD "other")
      then (pySplit (pyLower (pyStrip modelOutput))).headD "other"
      else "other" := by
    unfold classifyIntent
    by_cases h0 : pyLower (pyStrip modelOutput) = ""
    · rw [h0]
      rfl
    · simp [h0]
  rw [hchar]
  by_cases hmem : (pySplit (pyLower (pyStrip modelOutput))).headD "other"
      ∈ allowedIntents
  · rw [if_pos (contains_iff_mem_str.mpr hmem)]
    exact ⟨hmem, fun _ => rfl, fun h => absurd hmem h⟩
  · rw [if_neg (fun hc => hmem (contains_iff_mem_str.mp hc))]
    exact ⟨by decide, fun h => absurd h hmem, fun _ => rfl⟩

/-- Witness for C7 at concrete outputs: `"  TASK please"` normalizes to
`task`, while `banana` and the empty output normalize to `other`. -/
theorem C7_classifier_normalizes_witness :
    classifyIntent "  TASK please" = "task" ∧
    classifyIntent "banana" = "other" ∧ classifyIntent "" = "other" :=
  ⟨(C7_classifier_normalizes "  TASK please").2.1 (by decide),
   (C7_classifier_normalizes "banana").2.2 (by decide),
   (C7_classifier_normalizes "").2.1 (by decide)⟩

/-- Claim C5 counterexample: `_handle_action` is not raise-free for every
model output — the output `3` decodes to a JSON number and the subsequent
`data.get("reply", "")` raises `AttributeError`, which propagates. -/
theorem C5_counterexample :
    handleAction { exEnv with actionCompletion := .ok "3" } "task" =
      .error .jsonAttr := by
  rfl

/-- Claim C5 (amended): for every action-handler model output whose text
after code-fence stripping fails to decode as JSON, `_handle_action` returns
the fence-stripped text as the reply with intent `other` and null task/note,
raising nothing; outputs that decode to non-object JSON values instead raise
`AttributeError` (see the counterexample). -/
theorem C5_parse_failure_degrades (env : Env) (intent raw : String)
    (hraw : env.actionCompletion = .ok raw)
    (hparse : jsonLoads (stripCodeFences raw) = none) :
    handleAction env intent =
      .ok { reply := .str (stripCodeFences raw), intent := .str "other",
            task := .null, note := .null } := by
  unfold handleAction
  rw [hraw]
  simp only [bind_ok_eq]
  rw [hparse]

/-- Witness for C5 at the unparseable output `not json`. -/
theorem C5_parse_failure_degrades_witness :
    jsonLoads (stripCodeFences "not json") = none ∧
    handleAction { exEnv with actionCompletion := .ok "not json" } "task" =
      .ok { reply := .str "not json", intent := .str "other",
            task := .null, note := .null } :=
  ⟨rfl, C5_parse_failure_degrades _ "task" "not json" rfl rfl⟩

/-! ### Claims about the email agent -/

/-- Claim C9: `send_pending_draft` on a pending draft transmits exactly the
draft's raw payload; on provider success it clears the slot — the state
moves `draft_pending → idle` and `has_pending_draft()` turns false — and on
provider failure it raises a descriptive `EmailAgentError` and leaves the
pending slot exactly as it was. -/
theorem C9_send_pending_draft (st : EmailAgentState) (d : EmailDraft)
    (providerSend : Except String Unit) (h : st.pendingDraft = some d) :
    (sendPendingDraft st providerSend).sent = some d.raw ∧
    (providerSend = .ok () →
      (sendPendingDraft st providerSend).state.pendingDraft = none ∧
      hasPendingDraft (sendPendingDraft st providerSend).state = false ∧
      (sendPendingDraft st providerSend).result =
        .ok ("Done — I sent your reply about '" ++ d.subject ++ "'.")) ∧
    (∀ e, providerSend = .error e →
      (sendPendingDraft st providerSend).state = st ∧
      (sendPendingDraft st providerSend).result =
        .error (.agentError ("Failed to send the email: " ++ e))) := by
  cases providerSend with
  | ok u => cases u; simp [sendPendingDraft, h, hasPendingDraft]
  | error e => simp [sendPendingDraft, h, hasPendingDraft]

/-- Witness for C9: a concrete pending draft, sent once against a healthy
provider and once against a failing one. -/
theorem C9_send_pending_draft_witness :
    (sendPendingDraft pendingAgent (.ok ())).state.pendingDraft = none ∧
    (sendPendingDraft pendingAgent (.error "boom")).state = pendingAgent ∧
    (sendPendingDraft pendingAgent (.error "boom")).sent = some "RAW-PAYLOAD" := by
  refine ⟨?_, ?_, ?_⟩
  · exact ((C9_send_pending_draft pendingAgent exDraft (.ok ()) rfl).2.1 rfl).1
  · exact ((C9_send_pending_draft pendingAgent exDraft (.error "boom") rfl).2.2
      "boom" rfl).1
  · exact (C9_send_pending_draft pendingAgent exDraft (.error "boom") rfl).1

/-! ### Claims about the memory-context builder -/

/-- Claim C10: `build_memory_context` called with an empty user message, or
on a manager whose entity id could not be resolved, returns the empty string
without querying the fact store — whatever facts the store holds. -/
theorem C10_guard_skips_fact_store (mgr : MemoryManagerState)
    (userMessage : String) (h : userMessage = "" ∨ mgr.entityId = none) :
    buildMemoryContext mgr userMessage = { context := "", queriedStore := false } := by
  unfold buildMemoryContext
  rcases h with h | h
  · simp [h]
  · simp [h, entityFalsy]

/-- Witness for C10: a store holding a fact is not consulted when the
message is empty or the entity id is unresolved. -/
theorem C10_guard_skips_fact_store_witness :
    buildMemoryContext { entityId := none, fetchOutcome := .ok ["a fact"] } "hello"
      = { context := "", queriedStore := false } ∧
    buildMemoryContext { entityId := some 7, fetchOutcome := .ok ["a fact"] } ""
      = { context := "", queriedStore := false } :=
  ⟨C10_guard_skips_fact_store _ "hello" (Or.inr rfl),
   C10_guard_skips_fact_store _ "" (Or.inl rfl)⟩

/-- Unfolding step for a failed `Except` computation. -/
theorem bind_error_eq {ε α β : Type} (e : ε) (f : α → Except ε β) :
    (Except.error e : Except ε α) >>= f = .error e := rfl

/-- Every value `_handle_email` returns (as opposed to raises) is the
fixed envelope: intent `email`, null task and note. -/
theorem handleEmail_ok_shape {env : EmailEnv} {st : EmailAgentState}
    {r : PyResult} {st' : EmailAgentState}
    (h : handleEmail env st = .ok (r, st')) :
    r.intent = Json.str "email" ∧ r.task = Json.null ∧ r.note = Json.null := by
  unfold handleEmail at h
  cases hc : handleEmailCore env st with
  | error e => rw [hc] at h; exact Except.noConfusion h
  | ok p =>
    rw [hc] at h
    have h1 : emailEnvelope p = (r, st') := Except.ok.inj h
    have h2 : r = (emailEnvelope p).1 := by rw [h1]
    rw [h2]
    exact ⟨rfl, rfl, rfl⟩

/-- Claim C8: when a draft is pending and a `send_draft` command arrives
whose confirmation field is not `send_now`, the pending slot is left
exactly as it was (the state stays `draft_pending`) and the reply is the
confirmation-request string. -/
theorem C8_send_draft_requires_confirmation (env : EmailEnv)
    (st : EmailAgentState) (d : EmailDraft) (raw : String)
    (fields : List (String × Json)) (q ins : String)
    (hd : st.pendingDraft = some d)
    (hinit : env.agentInit = .ok ())
    (hroute : env.routeCompletion = .ok raw)
    (hparse : jsonLoads (stripCodeFences raw) = some (Json.obj fields))
    (haction : pyGet (Json.obj fields) "action" (.str "summarize_inbox")
      = Json.str "send_draft")
    (hq : getStrField (Json.obj fields) "query" = .ok q)
    (hins : getStrField (Json.obj fields) "instructions" = .ok ins)
    (hconf : (pyGet (Json.obj fields) "confirmation" Json.null).eqStr "send_now"
      = false) :
    handleEmail env st = .ok
      ({ reply := .str "I have the draft ready. Say 'yes, send it' when you're sure.",
         intent := .str "email", task := .null, note := .null }, st) := by
  unfold handleEmail handleEmailCore
  rw [hinit, hroute]
  simp only [bind_ok_eq]
  rw [hparse]
  simp only [hq, hins, bind_ok_eq]
  rw [haction]
  unfold dispatchEmailAction
  rw [hconf]
  simp [hasPendingDraft, hd, Json.eqStr, Except.map, emailEnvelope]

/-- Routing output asking to send with `needs_confirmation`. -/
def routeC8 : String :=
  "\x7b\"action\": \"send_draft\", \"confirmation\": \"needs_confirmation\"\x7d"

def envC8 : EmailEnv := { exEmailEnv with routeCompletion := .ok routeC8 }

/-- Witness for C8: a concrete routing output asking to send with
`needs_confirmation`, against an agent holding a pending draft. -/
theorem C8_send_draft_requires_confirmation_witness :
    handleEmail envC8 pendingAgent = .ok
      ({ reply := .str "I have the draft ready. Say 'yes, send it' when you're sure.",
         intent := .str "email", task := .null, note := .null }, pendingAgent) :=
  C8_send_draft_requires_confirmation envC8 pendingAgent exDraft routeC8
    [("action", Json.str "send_draft"), ("confirmation", Json.str "needs_confirmation")]
    "" "" rfl rfl rfl rfl rfl rfl rfl rfl

/-- Claim C6: any user text containing a mail keyword (case-insensitive
substring comparison against the fixed keyword set) is routed with intent
`email`, regardless of the classifier's output: the routed intent is
`email` for every classified value, and every result `handle_message`
returns for such a text carries intent `email`. -/
theorem C6_mail_keyword_forces_email (userText : String)
    (h : containsEmailKeyword userText = true) :
    (∀ classified, routeIntent classified userText = "email") ∧
    (∀ (env : Env) (st st' : EmailAgentState) (r : PyResult),
      handleMessage env st userText = .ok (r, st') →
      r.intent = Json.str "email") := by
  have hroute : ∀ classified, routeIntent classified userText = "email" := by
    intro c
    unfold routeIntent
    by_cases hc : c = "email"
    · simp [hc]
    · simp [hc, h]
  refine ⟨hroute, ?_⟩
  intro env st st' r hmsg
  unfold handleMessage at hmsg
  cases hcl : env.classifyCompletion with
  | error e =>
    rw [hcl, bind_error_eq] at hmsg
    exact Except.noConfusion hmsg
  | ok rawC =>
    rw [hcl] at hmsg
    simp only [bind_ok_eq, hroute] at hmsg
    exact (handleEmail_ok_shape hmsg).1

/-- Witness for C6: `check my inbox` contains the keyword `inbox`, so the
routed intent is `email` even when the classifier said `question`. -/
theorem C6_mail_keyword_forces_email_witness :
    containsEmailKeyword "check my inbox" = true ∧
    routeIntent "question" "check my inbox" = "email" :=
  ⟨by decide,
   (C6_mail_keyword_forces_email "check my inbox" (by decide)).1 "question"⟩

/-- The classifier only ever produces one of the six labels. -/
theorem classifyIntent_mem (modelOutput : String) :
    classifyIntent modelOutput ∈ allowedIntents := by
  simp only [classifyIntent]
  split <;> split
  · decide
  · decide
  · next h => exact contains_iff_mem_str.mp h
  · decide

/-- The keyword override keeps the intent inside the six labels. -/
theorem routeIntent_mem (classified userText : String)
    (h : classified ∈ allowedIntents) :
    routeIntent classified userText ∈ allowedIntents := by
  unfold routeIntent
  split
  · decide
  · exact h

/-- Case analysis of a returned `handle_message` result: either it carries
one of the six intents with null task and note (email route, conversation
route, or action-handler parse failure), or the action route successfully
parsed the handler JSON into an object and copied its four fields
verbatim. -/
theorem handleMessage_ok_cases {env : Env} {st : EmailAgentState}
    {userText : String} {r : PyResult} {st' : EmailAgentState}
    (h : handleMessage env st userText = .ok (r, st')) :
    (r.intent ∈ allowedIntents.map Json.str ∧
      r.task = Json.null ∧ r.note = Json.null) ∨
    (∃ raw fields classified,
      env.actionCompletion = .ok raw ∧
      jsonLoads (stripCodeFences raw) = some (Json.obj fields) ∧
      classified ∈ ["task", "note", "draft_reply"] ∧
      r = { reply := pyGet (Json.obj fields) "reply" (Json.str ""),
            intent := pyGet (Json.obj fields) "intent" (Json.str classified),
            task := pyGet (Json.obj fields) "task" Json.null,
            note := pyGet (Json.obj fields) "note" Json.null }) := by
  unfold handleMessage at h
  cases hcl : env.classifyCompletion with
  | error e => rw [hcl, bind_error_eq] at h; exact Except.noConfusion h
  | ok rawC =>
    rw [hcl] at h
    simp only [bind_ok_eq] at h
    have hmem : routeIntent (classifyIntent rawC) userText ∈ allowedIntents :=
      routeIntent_mem _ _ (classifyIntent_mem rawC)
    split at h
    · -- email route
      obtain ⟨hi, ht, hn⟩ := handleEmail_ok_shape h
      refine Or.inl ⟨?_, ht, hn⟩
      rw [hi]
      exact List.mem_map.mpr ⟨"email", by decide, rfl⟩
    · split at h
      · next hcond =>
        -- action route
        cases ha : handleAction env (routeIntent (classifyIntent rawC) userText) with
        | error e => rw [ha, bind_error_eq] at h; exact Except.noConfusion h
        | ok r0 =>
          rw [ha] at h
          simp only [bind_ok_eq] at h
          have hr0 : r0 = r := congrArg Prod.fst (Except.ok.inj h)
          unfold handleAction at ha
          cases hac : env.actionCompletion with
          | error e => rw [hac, bind_error_eq] at ha; exact Except.noConfusion ha
          | ok raw =>
            rw [hac] at ha
            simp only [bind_ok_eq] at ha
            cases hp : jsonLoads (stripCodeFences raw) with
            | none =>
              rw [hp] at ha
              have hrec : r = PyResult.mk (Json.str (stripCodeFences raw))
                  (Json.str "other") Json.null Json.null := by
                rw [← hr0, ← Except.ok.inj ha]
              refine Or.inl ⟨?_, by rw [hrec], by rw [hrec]⟩
              rw [hrec]
              exact List.mem_map.mpr ⟨"other", by decide, rfl⟩
            | some data =>
              rw [hp] at ha
              cases data with
              | obj fields =>
                refine Or.inr ⟨raw, fields,
                  routeIntent (classifyIntent rawC) userText, rfl, hp, ?_, ?_⟩
                · rcases hcond with hc | hc | hc <;> rw [hc] <;> decide
                · rw [← hr0, ← Except.ok.inj ha]
              | null => exact Except.noConfusion ha
              | bool b => exact Except.noConfusion ha
              | num l => exact Except.noConfusion ha
              | str s => exact Except.noConfusion ha
              | arr es => exact Except.noConfusion ha
      · -- conversation route
        cases hcv : env.convCompletion with
        | error e =>
          rw [handleConversation, hcv, bind_error_eq] at h
          exact Except.noConfusion h
        | ok raw =>
          rw [handleConversation, hcv] at h
          simp only [bind_ok_eq] at h
          have hrec : r = PyResult.mk (Json.str (pyStrip raw))
              (Json.str (routeIntent (classifyIntent rawC) userText))
              Json.null Json.null :=
            (congrArg Prod.fst (Except.ok.inj h)).symm
          refine Or.inl ⟨?_, by rw [hrec], by rw [hrec]⟩
          rw [hrec]
          exact List.mem_map.mpr ⟨_, hmem, rfl⟩

/-- Handler output carrying an out-of-enumeration intent. -/
def actionC1 : String :=
  "\x7b\"reply\": \"ok\", \"intent\": \"banana\", \"task\": null, \"note\": null\x7d"

def envC1 : Env :=
  { exEnv with classifyCompletion := .ok "task", actionCompletion := .ok actionC1 }

/-- Claim C1 counterexample: with classifier output `task` and handler
output carrying `"intent": "banana"`, `handle_message` returns a result
whose intent is `banana` — not one of the six enumerated values; the
parsed handler intent is copied verbatim, unvalidated. -/
theorem C1_counterexample :
    handleMessage envC1 idleAgent "remind me to call mom" =
      .ok ({ reply := .str "ok", intent := .str "banana",
             task := .null, note := .null }, idleAgent) ∧
    allowedIntents.contains "banana" = false :=
  ⟨rfl, rfl⟩

/-- Claim C1 (amended): `handle_message` always returns the four-field
`reply`/`intent`/`task`/`note` envelope (the `PyResult` record mirrors
the dict built at every return site), and the returned intent is one of
the six enumerated values except on the action route when the handler
output parses to a JSON object: then the `intent` field of that object
(defaulting to the classified intent) is passed through verbatim. -/
theorem C1_intent_enumeration {env : Env} {st : EmailAgentState}
    {userText : String} {r : PyResult} {st' : EmailAgentState}
    (h : handleMessage env st userText = .ok (r, st')) :
    r.intent ∈ allowedIntents.map Json.str ∨
    (∃ raw fields classified,
      env.actionCompletion = .ok raw ∧
      jsonLoads (stripCodeFences raw) = some (Json.obj fields) ∧
      classified ∈ ["task", "note", "draft_reply"] ∧
      r.intent = pyGet (Json.obj fields) "intent" (Json.str classified)) := by
  rcases handleMessage_ok_cases h with ⟨hi, _, _⟩ | ⟨raw, fields, c, ha, hp, hc, hr⟩
  · exact Or.inl hi
  · exact Or.inr ⟨raw, fields, c, ha, hp, hc, by rw [hr]⟩

/-- Witness for C1 on a conversation turn: the returned intent `question`
is one of the six enumerated values. -/
theorem C1_intent_enumeration_witness :
    Json.str "question" ∈ allowedIntents.map Json.str ∨
    (∃ raw fields classified,
      exEnv.actionCompletion = .ok raw ∧
      jsonLoads (stripCodeFences raw) = some (Json.obj fields) ∧
      classified ∈ ["task", "note", "draft_reply"] ∧
      Json.str "question" = pyGet (Json.obj fields) "intent" (Json.str classified)) :=
  @C1_intent_enumeration exEnv idleAgent "tell me a joke"
    (PyResult.mk (Json.str "hello") (Json.str "question") Json.null Json.null)
    idleAgent rfl

/-- Handler output with intent `question` but a non-null task. -/
def actionC2 : String :=
  "\x7b\"reply\": \"r\", \"intent\": \"question\", \"task\": \x7b\"title\": \"t\"\x7d, \"note\": null\x7d"

def envC2 : Env :=
  { exEnv with classifyCompletion := .ok "task", actionCompletion := .ok actionC2 }

/-- Claim C2 counterexample: the handler JSON can make `handle_message`
return a non-null task together with intent `question`, so task and note
are not both null whenever the intent differs from `task`/`note` (nor are
they mutually exclusive in general — the fields are copied verbatim). -/
theorem C2_counterexample :
    handleMessage envC2 idleAgent "remind me to call mom" =
      .ok ({ reply := .str "r", intent := .str "question",
             task := .obj [("title", .str "t")], note := .null }, idleAgent) ∧
    Json.obj [("title", Json.str "t")] ≠ Json.null :=
  ⟨rfl, fun hne => Json.noConfusion hne⟩

/-- Claim C2 (amended): the result's task and note are both null on the
email route, the conversation route and on action-handler parse failure;
when the action handler's output parses to a JSON object, task and note
are the object's `task`/`note` fields taken verbatim (null when absent),
so the mutual-exclusion invariant holds only for schema-conforming
handler output. -/
theorem C2_task_note_null {env : Env} {st : EmailAgentState}
    {userText : String} {r : PyResult} {st' : EmailAgentState}
    (h : handleMessage env st userText = .ok (r, st')) :
    (r.task = Json.null ∧ r.note = Json.null) ∨
    (∃ raw fields,
      env.actionCompletion = .ok raw ∧
      jsonLoads (stripCodeFences raw) = some (Json.obj fields) ∧
      r.task = pyGet (Json.obj fields) "task" Json.null ∧
      r.note = pyGet (Json.obj fields) "note" Json.null) := by
  rcases handleMessage_ok_cases h with ⟨_, ht, hn⟩ | ⟨raw, fields, c, ha, hp, _, hr⟩
  · exact Or.inl ⟨ht, hn⟩
  · exact Or.inr ⟨raw, fields, ha, hp, by rw [hr], by rw [hr]⟩

/-- Witness for C2 on a conversation turn: both structured fields are
null. -/
theorem C2_task_note_null_witness :
    ((Json.null = Json.null ∧ Json.null = Json.null) ∨
    (∃ raw fields,
      exEnv.actionCompletion = .ok raw ∧
      jsonLoads (stripCodeFences raw) = some (Json.obj fields) ∧
      Json.null = pyGet (Json.obj fields) "task" Json.null ∧
      Json.null = pyGet (Json.obj fields) "note" Json.null)) :=
  @C2_task_note_null exEnv idleAgent "how are you today"
    (PyResult.mk (Json.str "hello") (Json.str "question") Json.null Json.null)
    idleAgent rfl

/-- A model output that decodes to a JSON object or fails to decode, so
the Python code's `dict` access after `json.loads` cannot raise
`AttributeError`. -/
def decodesObjectOrFails (raw : String) : Bool :=
  match jsonLoads (stripCodeFences raw) with
  | none => true
  | some (Json.obj _) => true
  | some _ => false

/-- A routing model output `_handle_email` survives: it decodes to an
object (or not at all, giving the default command) and its `query` and
`instructions` fields pass `(x or "").strip()` without `AttributeError`. -/
def emailCommandSafe (raw : String) : Bool :=
  match jsonLoads (stripCodeFences raw) with
  | none => true
  | some (Json.obj fields) =>
    (getStrField (Json.obj fields) "query").isOk &&
      (getStrField (Json.obj fields) "instructions").isOk
  | some _ => false

theorem ok_of_isOk {x : Except Exc String} (h : x.isOk = true) :
    ∃ v, x = .ok v := by
  cases x with
  | ok v => exact ⟨v, rfl⟩
  | error e => exact Bool.noConfusion h

/-- For every agent availability, provider behaviour and agent-operation
outcome, `_handle_email` returns (rather than raises) as long as the
routing output is command-safe. -/
theorem handleEmailCore_total (env : EmailEnv) (st : EmailAgentState)
    (re : String) (he : env.routeCompletion = .ok re)
    (heo : emailCommandSafe re = true) :
    ∃ p, handleEmailCore env st = .ok p := by
  unfold handleEmailCore
  cases hinit : env.agentInit with
  | error e => exact ⟨_, rfl⟩
  | ok u =>
    cases u
    rw [he]
    simp only [bind_ok_eq]
    unfold emailCommandSafe at heo
    cases hp : jsonLoads (stripCodeFences re) with
    | none => exact ⟨_, rfl⟩
    | some j =>
      rw [hp] at heo
      cases j with
      | obj fields =>
        have heo2 : ((getStrField (Json.obj fields) "query").isOk &&
            (getStrField (Json.obj fields) "instructions").isOk) = true := heo
        rw [Bool.and_eq_true] at heo2
        obtain ⟨q, hq⟩ := ok_of_isOk heo2.1
        obtain ⟨ins, hins⟩ := ok_of_isOk heo2.2
        simp only [hq, hins, bind_ok_eq]
        exact ⟨_, rfl⟩
      | null => exact Bool.noConfusion heo
      | bool b => exact Bool.noConfusion heo
      | num l => exact Bool.noConfusion heo
      | str s => exact Bool.noConfusion heo
      | arr es => exact Bool.noConfusion heo

/-- The action handler returns whenever its model output decodes to an
object or fails to decode. -/
theorem handleAction_total (env : Env) (intent ra : String)
    (ha : env.actionCompletion = .ok ra)
    (hao : decodesObjectOrFails ra = true) :
    ∃ r, handleAction env intent = .ok r := by
  unfold handleAction
  rw [ha]
  simp only [bind_ok_eq]
  unfold decodesObjectOrFails at hao
  cases hp : jsonLoads (stripCodeFences ra) with
  | none => exact ⟨_, rfl⟩
  | some j =>
    rw [hp] at hao
    cases j with
    | obj fields => exact ⟨_, rfl⟩
    | null => exact Bool.noConfusion hao
    | bool b => exact Bool.noConfusion hao
    | num l => exact Bool.noConfusion hao
    | str s => exact Bool.noConfusion hao
    | arr es => exact Bool.noConfusion hao

def envC3 : Env :=
  { exEnv with classifyCompletion := .ok "task", actionCompletion := .ok "3" }

/-- Claim C3 counterexample: a pure model-output behaviour — the action
handler answering `3` — makes `handle_message` raise (`AttributeError`
from `data.get` on a non-dict), which is not a missing-configuration
error, so the turn produces no reply. -/
theorem C3_counterexample :
    handleMessage envC3 idleAgent "remind me to call mom" =
      .error .jsonAttr :=
  rfl

/-- Claim C3 (amended): whenever each completion call returns rather than
raises, the action output decodes to an object or fails to decode, and
the routing output is command-safe, `handle_message` returns a reply for
every behaviour of the memory store, the mail provider and the email
agent's operations — in particular no mail-provider failure escapes the
email handler, which converts it into reply text.  The unamended claim
fails because completion-call exceptions propagate and because handler or
routing outputs decoding to non-object JSON (or routing commands with
truthy non-string `query`/`instructions`) raise `AttributeError`; see the
counterexample. -/
theorem C3_always_replies (env : Env) (st : EmailAgentState) (userText : String)
    (rc ra rv re : String)
    (hc : env.classifyCompletion = .ok rc)
    (ha : env.actionCompletion = .ok ra)
    (hv : env.convCompletion = .ok rv)
    (he : env.email.routeCompletion = .ok re)
    (hao : decodesObjectOrFails ra = true)
    (heo : emailCommandSafe re = true) :
    ∃ r st', handleMessage env st userText = .ok (r, st') := by
  unfold handleMessage
  rw [hc]
  simp only [bind_ok_eq]
  split
  · obtain ⟨p, hp⟩ := handleEmailCore_total env.email st re he heo
    refine ⟨(emailEnvelope p).1, (emailEnvelope p).2, ?_⟩
    rw [handleEmail, hp]
    rfl
  · split
    · obtain ⟨r0, hr0⟩ := handleAction_total env _ ra ha hao
      exact ⟨r0, st, by rw [hr0]; rfl⟩
    · refine ⟨PyResult.mk (Json.str (pyStrip rv))
        (Json.str (routeIntent (classifyIntent rc) userText)) Json.null Json.null,
        st, ?_⟩
      rw [handleConversation, hv]
      rfl

/-- Witness for C3: concrete healthy completions (classifier `question`,
empty-object action and routing outputs) produce a reply. -/
theorem C3_always_replies_witness :
    ∃ r st', handleMessage exEnv idleAgent "tell me about my day" = .ok (r, st') :=
  C3_always_replies exEnv idleAgent "tell me about my day"
    "question" "\x7b\x7d" "hello" "\x7b\x7d" rfl rfl rfl rfl rfl rfl

/-- An insertion into a strictly smaller tail goes in front. -/
theorem sortDesc_eq_self {l : List (Int × String)}
    (h : l.Pairwise (fun a b => b.1 < a.1)) : sortDesc l = l := by
  induction l with
  | nil => rfl
  | cons x xs ih =>
    rw [List.pairwise_cons] at h
    rw [sortDesc, ih h.2]
    cases xs with
    | nil => rfl
    | cons y ys =>
      simp only [insertDesc]
      rw [if_neg]
      exact not_lt.mpr (le_of_lt (h.1 y (List.mem_cons_self y ys)))

/-- With no keyword hits anywhere, the scores are the pure recency
bonuses, strictly decreasing along the recency-ordered list. -/
theorem scoreFacts_pairwise_of_no_hits {keywords : List String}
    {facts : List String}
    (h : ∀ f ∈ facts, countKeywordHits keywords f = 0) :
    (scoreFacts keywords facts).Pairwise (fun a b => b.1 < a.1) := by
  unfold scoreFacts
  rw [List.pairwise_map, List.pairwise_iff_getElem]
  intro i j hi hj hij
  rw [List.enum_length] at hi hj
  simp only [List.getElem_enum]
  show factScore keywords facts.length j facts[j] <
    factScore keywords facts.length i facts[i]
  unfold factScore
  rw [h _ (List.getElem_mem hj), h _ (List.getElem_mem hi)]
  have hij' : (i : Int) < (j : Int) := by exact_mod_cast hij
  have hjn : (j : Int) < (facts.length : Int) := by exact_mod_cast hj
  rw [max_eq_right (by omega), max_eq_right (by omega)]
  omega

/-- Every fact scores strictly positively: the recency bonus alone is at
least one hundredth.  This is why the three-most-recent fallback in
`build_memory_context` is unreachable for a nonempty fact list. -/
theorem scoreFacts_pos {keywords : List String} {facts : List String} :
    ∀ p ∈ scoreFacts keywords facts, 0 < p.1 := by
  intro p hp
  unfold scoreFacts at hp
  rw [List.mem_map] at hp
  obtain ⟨q, hq, rfl⟩ := hp
  have hget := List.mem_enum_iff_getElem?.mp hq
  have hlt : q.1 < facts.length := by
    rcases List.getElem?_eq_some.mp hget with ⟨hl, _⟩
    exact hl
  show 0 < factScore keywords facts.length q.1 q.2
  unfold factScore
  have hb : (0 : Int) < max 0 ((facts.length : Int) - (q.1 : Int)) := by
    have : (q.1 : Int) < (facts.length : Int) := by exact_mod_cast hlt
    rw [max_eq_right (by omega)]
    omega
  exact add_pos_of_nonneg_of_pos (by positivity) hb

theorem scoreFacts_map_snd (keywords : List String) (facts : List String) :
    (scoreFacts keywords facts).map Prod.snd = facts := by
  unfold scoreFacts
  rw [List.map_map]
  exact List.enum_map_snd facts

theorem countKeywordHits_eq_zero {keywords : List String} {fact : String}
    (h : ∀ kw ∈ keywords, strContains (pyLower fact) kw = false) :
    countKeywordHits keywords fact = 0 := by
  unfold countKeywordHits
  rw [List.length_eq_zero, List.filter_eq_nil_iff]
  intro kw hkw
  simp [h kw hkw]

def mgrC4 : MemoryManagerState where
  entityId := some 1
  fetchOutcome := .ok ["alpha one", "bravo two", "charlie three", "delta four"]

/-- Claim C4 counterexample: with four stored facts and a query keyword
contained in none of them, `build_memory_context` returns the five most
recent facts (here all four), not the claimed three most recent — the
strictly positive recency bonus makes every score positive, so the
three-fact fallback cannot trigger. -/
theorem C4_counterexample :
    (buildMemoryContext mgrC4 "zzzz").context =
      "Relevant memories:\n- alpha one\n- bravo two\n- charlie three\n- delta four" ∧
    "Relevant memories:\n- alpha one\n- bravo two\n- charlie three\n- delta four" ≠
      "Relevant memories:\n- alpha one\n- bravo two\n- charlie three" :=
  ⟨rfl, by decide⟩

/-- Claim C4 (amended): `build_memory_context` returns the empty string on
an empty fetched fact list; each fact is scored by its keyword-hit count
plus a positive recency bonus proportional to its position, so when no
fetched fact contains any query keyword the result is the header line
followed by the up-to-five (not three) most recent facts; and the
returned string never exceeds 1500 characters. -/
theorem C4_memory_scoring (mgr : MemoryManagerState) (userMessage : String)
    (rows : List String) (hm : userMessage ≠ "")
    (he : entityFalsy mgr.entityId = false)
    (hf : mgr.fetchOutcome = .ok rows) :
    (fetchedFacts rows = [] → (buildMemoryContext mgr userMessage).context = "") ∧
    ((∀ f ∈ fetchedFacts rows, ∀ kw ∈ queryKeywords userMessage,
        strContains (pyLower f) kw = false) →
      fetchedFacts rows ≠ [] →
      (buildMemoryContext mgr userMessage).context =
        pySlice (String.intercalate "\n" ("Relevant memories:" ::
          ((fetchedFacts rows).take 5).map (fun f => "- " ++ f))) 1500) ∧
    (∀ (mgr2 : MemoryManagerState) (msg2 : String),
      (buildMemoryContext mgr2 msg2).context.length ≤ 1500) := by
  have hg : (decide (userMessage = "") || entityFalsy mgr.entityId) = false := by
    rw [he, Bool.or_false, decide_eq_false_iff_not]
    exact hm
  refine ⟨?_, ?_, ?_⟩
  · intro hnil
    unfold buildMemoryContext
    rw [hg, hf]
    simp [hnil]
  · intro hno hne
    have hz : ∀ f ∈ fetchedFacts rows,
        countKeywordHits (queryKeywords userMessage) f = 0 :=
      fun f hfm => countKeywordHits_eq_zero (hno f hfm)
    have hsort : sortDesc (scoreFacts (queryKeywords userMessage) (fetchedFacts rows))
        = scoreFacts (queryKeywords userMessage) (fetchedFacts rows) :=
      sortDesc_eq_self (scoreFacts_pairwise_of_no_hits hz)
    have hfilt : (scoreFacts (queryKeywords userMessage) (fetchedFacts rows)).filter
          (fun p => decide (0 < p.1))
        = scoreFacts (queryKeywords userMessage) (fetchedFacts rows) :=
      List.filter_eq_self.mpr (fun p hp => decide_eq_true (scoreFacts_pos p hp))
    have hmap := scoreFacts_map_snd (queryKeywords userMessage) (fetchedFacts rows)
    have hemp : (fetchedFacts rows).isEmpty = false :=
      List.isEmpty_eq_false.mpr hne
    have htake : ((fetchedFacts rows).take 5).isEmpty = false := by
      rw [List.isEmpty_eq_false, Ne, List.take_eq_nil_iff]
      rintro (h5 | hfn)
      · exact absurd h5 (by decide)
      · exact hne hfn
    unfold buildMemoryContext
    rw [hg, hf]
    simp only [Bool.false_eq_true, if_false, hemp, hsort, hfilt, hmap, htake]
  · intro mgr2 msg2
    unfold buildMemoryContext
    split
    · exact Nat.zero_le _
    · split
      · exact Nat.zero_le _
      · dsimp only
        split
        · exact Nat.zero_le _
        · split
          · split
            · exact Nat.zero_le _
            · exact List.length_take_le _ _
          · exact List.length_take_le _ _

/-- Witness for C4: an empty store gives the empty context; four facts
sharing no keyword with the query `zzzz` give the header plus all four
facts, capped at 1500 characters. -/
theorem C4_memory_scoring_witness :
    (buildMemoryContext { entityId := some 1, fetchOutcome := .ok [] } "hello").context
      = "" ∧
    (buildMemoryContext mgrC4 "zzzz").context =
      pySlice (String.intercalate "\n" ("Relevant memories:" ::
        ((fetchedFacts ["alpha one", "bravo two", "charlie three", "delta four"]).take 5).map
          (fun f => "- " ++ f))) 1500 :=
  ⟨(C4_memory_scoring { entityId := some 1, fetchOutcome := .ok [] } "hello" []
      (by decide) rfl rfl).1 rfl,
   (C4_memory_scoring mgrC4 "zzzz" _ (by decide) rfl rfl).2.1 (by decide) (by decide)⟩

end MiniMe
